import Mathlib

/-!
# A shallow embedding of `RenderForwardTask.cpp` (render-utils)

This file embeds the forward render task graph of
`src/libraries/render-utils/src/RenderForwardTask.cpp` in Lean 4 and proves
properties of it: the node order and varying wiring produced by
`RenderForwardTask::build`, the framebuffer lifecycle of
`PrepareFramebuffer::run`, the lazily memoized stencil pipeline of
`Stencil::getPipeline` / `Stencil::run`, the batch structure of `Draw::run`
and `DrawBackground::run`, and whole-frame executions of the built graph.

GPU side effects are modelled as explicit command traces (`BatchCmd`), one
list of commands per recorded batch.  External collaborators (the GPU batch
object, the view frustum, the shape-pipeline library) appear as opaque
handles; their operations used by this file carry the data the source passes
to them.  Definitions whose source is not part of the repository snapshot
(only the spec describes them) carry a doc comment starting with
`Modelled from the spec:`.
-/

namespace RenderForward

/-- An `ivec4` viewport as used by `RenderArgs::_viewport`: `x, y` origin and
`z, w` the width and height (the code reads `frameSize = (viewport.z, viewport.w)`). -/
structure Viewport where
  x : Int
  y : Int
  z : Int
  w : Int
deriving DecidableEq, Repr

/-- A framebuffer resource as created by `PrepareFramebuffer::run`: identity of
the GPU object (`fbId`), its size, and the identities of its color and combined
depth/stencil attachments.  Fresh identities come from an allocation counter. -/
structure Framebuffer where
  fbId : Nat
  width : Int
  height : Int
  colorTex : Nat
  depthTex : Nat
deriving DecidableEq, Repr

/-- Depth comparison function; the source only uses `gpu::LESS_EQUAL`. -/
inductive CompareFn where
  | lessEqual
deriving DecidableEq, Repr

/-- Primitive topology; the source only draws `gpu::TRIANGLE_STRIP`. -/
inductive Primitive where
  | triangleStrip
deriving DecidableEq, Repr

/-- The slice of `gpu::State` configured by `Stencil::getPipeline`:
`state->setDepthTest(true, false, gpu::LESS_EQUAL)` plus the external
`PrepareStencil::drawBackground(*state)` stencil configuration (recorded as a
flag, its contents are outside this repository snapshot). -/
structure GpuState where
  depthTestEnabled : Bool
  depthWriteEnabled : Bool
  depthCompare : CompareFn
  stencilDrawBackground : Bool
deriving DecidableEq, Repr

/-- A GPU pipeline object: identity plus the program handles and render state
it was created from. -/
structure Pipeline where
  pipeId : Nat
  vs : Nat
  ps : Nat
  state : GpuState
deriving DecidableEq, Repr

/-- Opaque handle for `gpu::StandardShaderLib::getDrawUnitQuadTexcoordVS()`. -/
def drawUnitQuadTexcoordVS : Nat := 0

/-- Opaque handle for the pixel shader built from `nop_frag`. -/
def nopFragPS : Nat := 1

/-- A model transform: the default-constructed `Transform()` is the identity;
transforms obtained from external collaborators are opaque handles. -/
inductive Xform where
  | ident
  | ext (h : Nat)
deriving DecidableEq, Repr

/-- An opaque projection matrix handle (`glm::mat4` evaluated by the frustum). -/
structure Mat4 where
  handle : Nat
deriving DecidableEq, Repr

/-- The view frustum collaborator: `evalProjectionMatrix` and
`evalViewTransform` read these fields. -/
structure ViewFrustum where
  projMat : Mat4
  viewXform : Xform
deriving DecidableEq, Repr

/-- A render item handle: identity, material/pipeline key, and the zone tag
that `ZoneRenderer` recognizes on meta items. -/
structure Item where
  itemId : Nat
  key : Nat
  zone : Bool
deriving DecidableEq, Repr

/-- The shape-pipeline registry (`ShapePlumber`), reduced to the set of
pipeline keys it contains; built once by `initForwardPipelines` before any
draw node runs and immutable for the frame. -/
abbrev ShapePlumber := List Nat

/-- One recorded GPU command, mirroring the `gpu::Batch` calls the source
issues.  `clearFramebuffer` carries the three buffer-mask flags that the code
ORs together, the clear color, depth, stencil values and the scissor-enable
flag, in the order of the C++ call. -/
inductive BatchCmd where
  | enableStereo (b : Bool)
  | enableSkybox (b : Bool)
  | setViewportTransform (v : Viewport)
  | setStateScissorRect (v : Viewport)
  | setFramebuffer (fb : Framebuffer)
  | clearFramebuffer (color0 depth stencil : Bool)
      (cr cg cb ca : ℚ) (d : ℚ) (s : Nat) (enableScissor : Bool)
  | setProjectionTransform (m : Mat4)
  | setViewTransform (t : Xform)
  | setModelTransform (t : Xform)
  | setPipeline (p : Pipeline)
  | setShapePipeline (key : Nat)
  | draw (prim : Primitive) (numVertices : Nat)
  | drawItem (itemId : Nat)
  | blitColor (src : Framebuffer)
deriving DecidableEq, Repr

/-- Result of one `PrepareFramebuffer::run` invocation: the node's persisted
`_framebuffer` member afterwards, the advanced allocation counter, the value
written to the output varying (line 131: `framebuffer = _framebuffer`), and
the recorded batches. -/
structure PrepFbResult where
  nodeState : Option Framebuffer
  ctr : Nat
  output : Framebuffer
  batches : List (List BatchCmd)
deriving Repr

/-- Allocation of a fresh framebuffer (lines 104-117): a new `"forward"`
framebuffer object, a single-mip point-sampled color render buffer and a
combined depth24/stencil8 render buffer, all with fresh identities drawn from
the counter. -/
def allocateFramebuffer (ctr : Nat) (w h : Int) : Framebuffer :=
  { fbId := ctr, width := w, height := h, colorTex := ctr + 1, depthTex := ctr + 2 }

/-- `PrepareFramebuffer::run` (lines 96-132).  `st` is the persisted
`_framebuffer` member, `ctr` the fresh-identity counter, `vp` the
`args->_viewport`.  If an owned framebuffer exists and its size differs from
the frame size it is reset (never resized in place); if none exists a fresh
one is allocated.  One batch is always recorded: stereo off, viewport and
scissor to the full viewport, bind the framebuffer, one clear of color,
depth and stencil. -/
def PrepareFramebuffer.run (st : Option Framebuffer) (ctr : Nat) (vp : Viewport) :
    PrepFbResult :=
  let frameW := vp.z
  let frameH := vp.w
  let st1 : Option Framebuffer :=
    match st with
    | some fb => if fb.width = frameW ∧ fb.height = frameH then some fb else none
    | none => none
  let alloc : Framebuffer × Nat :=
    match st1 with
    | some fb => (fb, ctr)
    | none => (allocateFramebuffer ctr frameW frameH, ctr + 3)
  let fb := alloc.1
  let batch : List BatchCmd :=
    [ .enableStereo false,
      .setViewportTransform vp,
      .setStateScissorRect vp,
      .setFramebuffer fb,
      .clearFramebuffer true true true 0 0 0 1 1 0 true ]
  { nodeState := some fb, ctr := alloc.2, output := fb, batches := [batch] }

/-- The render state configured in `Stencil::getPipeline` (lines 162-164):
depth test enabled, depth writes disabled, comparison less-or-equal, plus the
external `PrepareStencil::drawBackground` stencil configuration. -/
def stencilRenderState : GpuState :=
  { depthTestEnabled := true
    depthWriteEnabled := false
    depthCompare := .lessEqual
    stencilDrawBackground := true }

/-- Result of `Stencil::getPipeline`: the pipeline handed back, the
`_stencilPipeline` member afterwards, and the construction counter (bumped
once per pipeline construction; it also supplies the fresh identity). -/
structure StencilGetResult where
  pipe : Pipeline
  nodeState : Option Pipeline
  builds : Nat
deriving Repr

/-- `Stencil::getPipeline` (lines 155-169): on first use, builds the program
from the unit-quad vertex shader and the `nop_frag` pixel shader, configures
the render state, creates the pipeline and memoizes it; afterwards returns
the cached object unchanged. -/
def Stencil.getPipeline (st : Option Pipeline) (builds : Nat) : StencilGetResult :=
  match st with
  | some p => { pipe := p, nodeState := some p, builds := builds }
  | none =>
      let p : Pipeline :=
        { pipeId := builds, vs := drawUnitQuadTexcoordVS, ps := nopFragPS,
          state := stencilRenderState }
      { pipe := p, nodeState := some p, builds := builds + 1 }

/-- Result of one `Stencil::run` invocation: node state, construction
counter, recorded batches, and the value of `args->_batch` after the call
(line 184 sets it to `nullptr`). -/
structure StencilRunResult where
  nodeState : Option Pipeline
  builds : Nat
  batches : List (List BatchCmd)
  batchPtrAfter : Option Nat
deriving Repr

/-- `Stencil::run` (lines 171-185): one batch that disables stereo, sets
viewport and scissor to the full viewport, binds the (lazily built) stencil
pipeline and draws a 4-vertex triangle strip; `args->_batch` is null after. -/
def Stencil.run (st : Option Pipeline) (builds : Nat) (vp : Viewport) :
    StencilRunResult :=
  let g := Stencil.getPipeline st builds
  let batch : List BatchCmd :=
    [ .enableStereo false,
      .setViewportTransform vp,
      .setStateScissorRect vp,
      .setPipeline g.pipe,
      .draw .triangleStrip 4 ]
  { nodeState := g.nodeState, builds := g.builds, batches := [batch],
    batchPtrAfter := none }

/-- The batch recorded by one `Stencil::run` that binds pipeline `p`. -/
def stencilBatch (vp : Viewport) (p : Pipeline) : List BatchCmd :=
  [ .enableStereo false,
    .setViewportTransform vp,
    .setStateScissorRect vp,
    .setPipeline p,
    .draw .triangleStrip 4 ]

/-- `N` consecutive `Stencil::run` invocations on the same node: final node
state, final construction counter, and all recorded batches in order. -/
def Stencil.runN : Nat → Option Pipeline → Nat → Viewport →
    Option Pipeline × Nat × List (List BatchCmd)
  | 0, st, b, _ => (st, b, [])
  | n + 1, st, b, vp =>
      let r := Stencil.run st b vp
      let rest := Stencil.runN n r.nodeState r.builds vp
      (rest.1, rest.2.1, r.batches ++ rest.2.2)

/-- Insert a key into a list sorted ascending. -/
def insertKey (k : Nat) : List Nat → List Nat
  | [] => [k]
  | x :: xs => if k ≤ x then k :: x :: xs else x :: insertKey k xs

/-- Sort keys ascending (insertion sort). -/
def sortKeys : List Nat → List Nat
  | [] => []
  | x :: xs => insertKey x (sortKeys xs)

/-- The distinct elements of a list, keeping first occurrences. -/
def distinctKeys : List Nat → List Nat
  | [] => []
  | x :: xs => x :: (distinctKeys xs).filter (fun y => ¬ y = x)

/-- Modelled from the spec: `renderStateSortShapes` (render library; its body
is not part of this repository snapshot).  Groups the bucket's items by
pipeline key, orders the groups by a key-derived ordering (stable and
deterministic across frames), binds each group's pipeline once and issues one
draw call per item of the group; items whose key is absent from the registry
are silently skipped. -/
def renderStateSortShapes (plumber : ShapePlumber) (items : List Item) :
    List BatchCmd :=
  let keys := sortKeys (distinctKeys (items.map Item.key))
  keys.flatMap (fun k =>
    if k ∈ plumber then
      BatchCmd.setShapePipeline k ::
        (items.filter (fun i => i.key = k)).map (fun i => BatchCmd.drawItem i.itemId)
    else [])

/-- Result of one `Draw::run` or `DrawBackground::run` invocation: recorded
batches and the value of `args->_batch` after the call. -/
structure DrawRunResult where
  batches : List (List BatchCmd)
  batchPtrAfter : Option Nat
deriving Repr

/-- `Draw::run` (lines 134-153): one batch; inside it, set the projection
transform evaluated from the active view frustum, the view transform from the
same frustum, reset the model transform to the identity, then render the
items via `renderStateSortShapes`; `args->_batch` is null after the call. -/
def Draw.run (frustum : ViewFrustum) (plumber : ShapePlumber) (items : List Item) :
    DrawRunResult :=
  let batch : List BatchCmd :=
    [ .setProjectionTransform frustum.projMat,
      .setViewTransform frustum.viewXform,
      .setModelTransform .ident ]
    ++ renderStateSortShapes plumber items
  { batches := [batch], batchPtrAfter := none }

/-- Modelled from the spec: `renderItems` (render library; not part of this
repository snapshot) issues the draw calls for each item of the bucket. -/
def renderItemsCmds (background : List Item) : List BatchCmd :=
  background.map (fun i => BatchCmd.drawItem i.itemId)

/-- `DrawBackground::run` (lines 187-208): one batch that enables the skybox,
sets viewport and scissor to the full viewport, sets the projection and view
transforms from the active view frustum and renders the background items;
`args->_batch` is null after the call. -/
def DrawBackground.run (frustum : ViewFrustum) (vp : Viewport)
    (background : List Item) : DrawRunResult :=
  let batch : List BatchCmd :=
    [ .enableSkybox true,
      .setViewportTransform vp,
      .setStateScissorRect vp,
      .setProjectionTransform frustum.projMat,
      .setViewTransform frustum.viewXform ]
    ++ renderItemsCmds background
  { batches := [batch], batchPtrAfter := none }

/-- The varyings threaded through the built graph: the three item buckets
extracted from the input (lines 46-49), and the values produced by
`MakeLightingModel`, `ZoneRendererTask` and `PrepareFramebuffer`. -/
inductive VaryingId where
  | opaques
  | transparents
  | metas
  | lightingModelV
  | zones
  | framebufferV
deriving DecidableEq, Repr

/-- The job classes instantiated by `RenderForwardTask::build`. -/
inductive NodeKind where
  | makeLightingModel
  | zoneRendererTask
  | prepareFramebufferJob
  | prepareStencilJob
  | drawShapes
  | drawBackgroundStage
  | drawBounds
  | compositeHUD
  | blitJob
deriving DecidableEq, Repr

/-- One node of the task graph: its name, job class, and the varyings wired
into it at build time. -/
structure Node where
  name : String
  kind : NodeKind
  inputs : List VaryingId
deriving DecidableEq, Repr

/-- The output varying each job class writes (if any): `MakeLightingModel`
produces the lighting-model descriptor, `ZoneRendererTask` the filtered zone
bucket, `PrepareFramebuffer` the frame's framebuffer. -/
def producedVarying : NodeKind → Option VaryingId
  | .makeLightingModel => some .lightingModelV
  | .zoneRendererTask => some .zones
  | .prepareFramebufferJob => some .framebufferV
  | _ => none

/-- `RenderForwardTask::build` (lines 37-94): the `addJob` calls it makes, in
order, with their wired input varyings.  (The preceding
`fadeEffect->build(task, opaques)` call on line 55 hands the opaque bucket to
the external fade-effect collaborator, whose own jobs are outside this
repository snapshot and are not part of this node list.) -/
def RenderForwardTask.build : List Node :=
  [ { name := "LightingModel", kind := .makeLightingModel, inputs := [] },
    { name := "ZoneRenderer", kind := .zoneRendererTask, inputs := [.metas] },
    { name := "PrepareFramebuffer", kind := .prepareFramebufferJob, inputs := [] },
    { name := "PrepareStencil", kind := .prepareStencilJob, inputs := [.framebufferV] },
    { name := "DrawOpaques", kind := .drawShapes, inputs := [.opaques] },
    { name := "DrawBackgroundDeferred", kind := .drawBackgroundStage,
      inputs := [.lightingModelV] },
    { name := "DrawTransparents", kind := .drawShapes, inputs := [.transparents] },
    { name := "DrawMetaBounds", kind := .drawBounds, inputs := [.metas] },
    { name := "DrawBounds", kind := .drawBounds, inputs := [.opaques] },
    { name := "DrawTransparentBounds", kind := .drawBounds, inputs := [.transparents] },
    { name := "DrawZones", kind := .drawBounds, inputs := [.zones] },
    { name := "HUD", kind := .compositeHUD, inputs := [] },
    { name := "Blit", kind := .blitJob, inputs := [.framebufferV] } ]

/-- A value held by a varying slot during a frame. -/
inductive VaryValue where
  | bucket (items : List Item)
  | fb (f : Framebuffer)
  | lighting (h : Nat)
deriving DecidableEq, Repr

/-- The per-frame varying store. -/
abbrev Store := VaryingId → Option VaryValue

/-- Write one varying slot. -/
def Store.update (store : Store) (v : VaryingId) (val : Option VaryValue) : Store :=
  fun v2 => if v2 = v then val else store v2

/-- Read a bucket out of a varying value (absent or ill-typed reads give the
empty bucket; the graph's build-time typing rules them out). -/
def asBucket : Option VaryValue → List Item
  | some (.bucket l) => l
  | _ => []

/-- Read a framebuffer out of a varying value. -/
def asFb : Option VaryValue → Option Framebuffer
  | some (.fb f) => some f
  | _ => none

/-- The single wired input of a node, when it has exactly one. -/
def read1 : List (Option VaryValue) → Option VaryValue
  | [v] => v
  | _ => none

/-- Modelled from the spec: `MakeLightingModel` (render library; not part of
this repository snapshot) produces a lighting-mode descriptor and records no
draw batches. -/
def makeLightingModelValue : VaryValue := .lighting 0

/-- Modelled from the spec: `ZoneRendererTask` (render library; not part of
this repository snapshot) filters the meta-item bucket down to the items
carrying the zone tag. -/
def zoneFilter (metas : List Item) : List Item :=
  metas.filter Item.zone

/-- Modelled from the spec: `DrawBackgroundStage` (render library; not part
of this repository snapshot) resolves the background stage accumulated by
earlier frame stages; with nothing accumulated in the modelled frame it
issues no draw calls. -/
def drawBackgroundStageBatches : List (List BatchCmd) := []

/-- Modelled from the spec: `DrawBounds` (render library; not part of this
repository snapshot) draws a debug bound per item of its bucket, read-only
over the bucket. -/
def drawBoundsBatches (items : List Item) : List (List BatchCmd) :=
  [ items.map (fun i => BatchCmd.drawItem i.itemId) ]

/-- Modelled from the spec: `CompositeHUD` (render library; not part of this
repository snapshot) composites the HUD; it issues no bucket draw calls. -/
def compositeHUDBatches : List (List BatchCmd) := []

/-- Modelled from the spec: `Blit` (render library; not part of this
repository snapshot) copies the consumed framebuffer's color to the display
target, recorded here as one `blitColor` command. -/
def blitBatches : Option Framebuffer → List (List BatchCmd)
  | some f => [ [ BatchCmd.blitColor f ] ]
  | none => []

/-- The per-frame external inputs: viewport, view frustum, the item buckets
extracted from the task input, and the shape-pipeline registry. -/
structure FrameInput where
  viewport : Viewport
  frustum : ViewFrustum
  opaques : List Item
  transparents : List Item
  metas : List Item
  plumber : ShapePlumber
deriving Repr

/-- The state persisted across frames by the stateful nodes: the framebuffer
owner's `_framebuffer` and allocation counter, and the stencil node's cached
`_stencilPipeline` and construction counter. -/
structure GraphState where
  fbNode : Option Framebuffer
  ctr : Nat
  stencilPipe : Option Pipeline
  builds : Nat
deriving DecidableEq, Repr

/-- What the executor records for each node run: its name, the varying values
it read, and the batches it issued. -/
structure TraceEntry where
  name : String
  readValues : List (Option VaryValue)
  batches : List (List BatchCmd)
deriving DecidableEq, Repr

/-- Result of running one node. -/
structure StepResult where
  st : GraphState
  store : Store
  entry : TraceEntry

/-- Run one node of the graph: read its wired varyings, run its job, write
its output varying (if any). -/
def runNode (inp : FrameInput) (node : Node) (st : GraphState) (store : Store) :
    StepResult :=
  let reads := node.inputs.map store
  match node.kind with
  | .makeLightingModel =>
      { st := st,
        store := store.update .lightingModelV (some makeLightingModelValue),
        entry := { name := node.name, readValues := reads, batches := [] } }
  | .zoneRendererTask =>
      let ms := asBucket (read1 reads)
      { st := st,
        store := store.update .zones (some (.bucket (zoneFilter ms))),
        entry := { name := node.name, readValues := reads, batches := [] } }
  | .prepareFramebufferJob =>
      let r := PrepareFramebuffer.run st.fbNode st.ctr inp.viewport
      { st := { st with fbNode := r.nodeState, ctr := r.ctr },
        store := store.update .framebufferV (some (.fb r.output)),
        entry := { name := node.name, readValues := reads, batches := r.batches } }
  | .prepareStencilJob =>
      let r := Stencil.run st.stencilPipe st.builds inp.viewport
      { st := { st with stencilPipe := r.nodeState, builds := r.builds },
        store := store,
        entry := { name := node.name, readValues := reads, batches := r.batches } }
  | .drawShapes =>
      let r := Draw.run inp.frustum inp.plumber (asBucket (read1 reads))
      { st := st, store := store,
        entry := { name := node.name, readValues := reads, batches := r.batches } }
  | .drawBackgroundStage =>
      { st := st, store := store,
        entry := { name := node.name, readValues := reads,
                   batches := drawBackgroundStageBatches } }
  | .drawBounds =>
      { st := st, store := store,
        entry := { name := node.name, readValues := reads,
                   batches := drawBoundsBatches (asBucket (read1 reads)) } }
  | .compositeHUD =>
      { st := st, store := store,
        entry := { name := node.name, readValues := reads,
                   batches := compositeHUDBatches } }
  | .blitJob =>
      { st := st, store := store,
        entry := { name := node.name, readValues := reads,
                   batches := blitBatches (asFb (read1 reads)) } }

/-- Run a list of nodes in order, threading the graph state and store,
collecting the trace. -/
def runNodes (inp : FrameInput) : List Node → GraphState → Store →
    GraphState × Store × List TraceEntry
  | [], st, store => (st, store, [])
  | n :: ns, st, store =>
      let r := runNode inp n st store
      let rest := runNodes inp ns r.st r.store
      (rest.1, rest.2.1, r.entry :: rest.2.2)

/-- The varying store at the start of a frame: the buckets extracted from the
task input (lines 46-49) are already filled by the external culling stage. -/
def initStore (inp : FrameInput) : Store := fun v =>
  match v with
  | .opaques => some (.bucket inp.opaques)
  | .transparents => some (.bucket inp.transparents)
  | .metas => some (.bucket inp.metas)
  | _ => none

/-- Execute one frame of the built graph. -/
def runFrame (inp : FrameInput) (st : GraphState) :
    GraphState × Store × List TraceEntry :=
  runNodes inp RenderForwardTask.build st (initStore inp)

/-- The draw calls of a command list. -/
def isDrawCall : BatchCmd → Bool
  | .draw _ _ => true
  | .drawItem _ => true
  | _ => false

/-- All draw calls issued during a frame, in order. -/
def frameDrawCalls (trace : List TraceEntry) : List BatchCmd :=
  trace.flatMap (fun e => e.batches.flatten.filter isDrawCall)

/-- The pipeline binds and draw calls of a command list, in order. -/
def bindsAndDraws (cmds : List BatchCmd) : List BatchCmd :=
  cmds.filter (fun c =>
    match c with
    | .setPipeline _ => true
    | .setShapePipeline _ => true
    | .draw _ _ => true
    | .drawItem _ => true
    | _ => false)

/-- Selects the `clearFramebuffer` commands of a command list. -/
def isClearCmd : BatchCmd → Bool
  | .clearFramebuffer _ _ _ _ _ _ _ _ _ _ => true
  | _ => false

/-- The end-to-end scenario input: empty buckets, empty registry, 800 by 600
viewport. -/
def emptyFrameInput : FrameInput :=
  { viewport := ⟨0, 0, 800, 600⟩, frustum := ⟨⟨0⟩, .ident⟩,
    opaques := [], transparents := [], metas := [], plumber := [] }

/-- A fresh graph state: no framebuffer owned, no stencil pipeline cached. -/
def freshGraphState : GraphState :=
  { fbNode := none, ctr := 0, stencilPipe := none, builds := 0 }

/-! ## Theorems -/

/-- Running `Stencil::run` any number of times on a node whose pipeline is
already cached keeps the cached object and the construction counter unchanged
and binds the same pipeline in every recorded batch. -/
theorem stencil_runN_cached (n : Nat) (p : Pipeline) (b : Nat) (vp : Viewport) :
    Stencil.runN n (some p) b vp = (some p, b, List.replicate n (stencilBatch vp p)) := by
  induction n with
  | zero => rfl
  | succ n ih =>
      simp [Stencil.runN, Stencil.run, Stencil.getPipeline, stencilBatch, ih,
        List.replicate]

/-- Claim C1: `RenderForwardTask::build` adds the named nodes in exactly the
order LightingModel, ZoneRenderer, PrepareFramebuffer, PrepareStencil,
DrawOpaques, DrawBackgroundDeferred, DrawTransparents, DrawMetaBounds,
DrawBounds, DrawTransparentBounds, DrawZones, HUD, Blit (last), and wires the
framebuffer varying produced by PrepareFramebuffer into PrepareStencil and
Blit, the metas bucket into ZoneRenderer, and ZoneRenderer's zones output into
DrawZones. -/
theorem build_node_order_and_wiring :
    RenderForwardTask.build.map Node.name =
      ["LightingModel", "ZoneRenderer", "PrepareFramebuffer", "PrepareStencil",
       "DrawOpaques", "DrawBackgroundDeferred", "DrawTransparents",
       "DrawMetaBounds", "DrawBounds", "DrawTransparentBounds", "DrawZones",
       "HUD", "Blit"] ∧
    (RenderForwardTask.build.getLast?).map Node.name = some "Blit" ∧
    (RenderForwardTask.build.find? (fun n => n.name == "PrepareFramebuffer")).map
        (fun n => producedVarying n.kind) = some (some .framebufferV) ∧
    (RenderForwardTask.build.find? (fun n => n.name == "PrepareStencil")).map
        Node.inputs = some [.framebufferV] ∧
    (RenderForwardTask.build.find? (fun n => n.name == "Blit")).map
        Node.inputs = some [.framebufferV] ∧
    (RenderForwardTask.build.find? (fun n => n.name == "ZoneRenderer")).map
        Node.inputs = some [.metas] ∧
    (RenderForwardTask.build.find? (fun n => n.name == "ZoneRenderer")).map
        (fun n => producedVarying n.kind) = some (some .zones) ∧
    (RenderForwardTask.build.find? (fun n => n.name == "DrawZones")).map
        Node.inputs = some [.zones] := by
  decide

/-- Claim C2: after every `PrepareFramebuffer::run` the owned framebuffer's
size equals the viewport size of that invocation, the output varying carries
the owned framebuffer, and whenever an existing framebuffer's size differs
from the viewport the whole resource is replaced by a freshly allocated one
(fresh framebuffer object and fresh color and depth/stencil attachments),
never resized in place. -/
theorem prepareFramebuffer_size_and_fresh_alloc (st : Option Framebuffer)
    (ctr : Nat) (vp : Viewport) :
    ((PrepareFramebuffer.run st ctr vp).output.width = vp.z ∧
     (PrepareFramebuffer.run st ctr vp).output.height = vp.w) ∧
    (PrepareFramebuffer.run st ctr vp).nodeState =
      some (PrepareFramebuffer.run st ctr vp).output ∧
    (∀ fb, st = some fb → ¬(fb.width = vp.z ∧ fb.height = vp.w) →
      (PrepareFramebuffer.run st ctr vp).output = allocateFramebuffer ctr vp.z vp.w ∧
      (fb.fbId < ctr → fb.colorTex < ctr → fb.depthTex < ctr →
        (PrepareFramebuffer.run st ctr vp).output.fbId ≠ fb.fbId ∧
        (PrepareFramebuffer.run st ctr vp).output.colorTex ≠ fb.colorTex ∧
        (PrepareFramebuffer.run st ctr vp).output.depthTex ≠ fb.depthTex)) := by
  cases st with
  | none => simp [PrepareFramebuffer.run, allocateFramebuffer]
  | some fb =>
      by_cases hs : fb.width = vp.z ∧ fb.height = vp.w
      · simp [PrepareFramebuffer.run, allocateFramebuffer, hs]
      · simp [PrepareFramebuffer.run, allocateFramebuffer, hs]
        omega

/-- Witness for claim C2: an 800 by 600 framebuffer (identities 0, 1, 2, all
below the counter 3) confronted with a 1920 by 1080 viewport yields a 1920-wide
framebuffer with a fresh identity. -/
theorem prepareFramebuffer_size_and_fresh_alloc_witness :
    (PrepareFramebuffer.run (some ⟨0, 800, 600, 1, 2⟩) 3 ⟨0, 0, 1920, 1080⟩).output.width = 1920 ∧
    (PrepareFramebuffer.run (some ⟨0, 800, 600, 1, 2⟩) 3 ⟨0, 0, 1920, 1080⟩).output.fbId ≠ 0 := by
  have h := prepareFramebuffer_size_and_fresh_alloc (some ⟨0, 800, 600, 1, 2⟩) 3
    ⟨0, 0, 1920, 1080⟩
  refine ⟨h.1.1, ?_⟩
  have h2 := h.2.2 ⟨0, 800, 600, 1, 2⟩ rfl (by decide)
  exact (h2.2 (by decide) (by decide) (by decide)).1

/-- Claim C3: invoking `Stencil::run` N times (N at least 1) on a fresh node
constructs the stencil pipeline exactly once (the construction counter ends at
1), the pipeline built on the first run has depth test enabled, depth writes
disabled and comparison less-or-equal, and every run — first and later —
binds that same cached pipeline object. -/
theorem stencil_pipeline_built_once (n : Nat) (vp : Viewport) (h : 1 ≤ n) :
    ∃ p : Pipeline,
      (Stencil.runN n none 0 vp).2.1 = 1 ∧
      (Stencil.runN n none 0 vp).1 = some p ∧
      p.state.depthTestEnabled = true ∧
      p.state.depthWriteEnabled = false ∧
      p.state.depthCompare = .lessEqual ∧
      (Stencil.runN n none 0 vp).2.2 = List.replicate n (stencilBatch vp p) := by
  obtain ⟨m, rfl⟩ : ∃ m, n = m + 1 := ⟨n - 1, by omega⟩
  refine ⟨{ pipeId := 0, vs := drawUnitQuadTexcoordVS, ps := nopFragPS,
            state := stencilRenderState }, ?_⟩
  simp [Stencil.runN, Stencil.run, Stencil.getPipeline, stencil_runN_cached,
    stencilBatch, stencilRenderState, List.replicate]

/-- Witness for claim C3: three runs on a fresh node with an 800 by 600
viewport construct the pipeline exactly once and replicate its batch. -/
theorem stencil_pipeline_built_once_witness :
    ∃ p : Pipeline,
      (Stencil.runN 3 none 0 ⟨0, 0, 800, 600⟩).2.1 = 1 ∧
      (Stencil.runN 3 none 0 ⟨0, 0, 800, 600⟩).1 = some p ∧
      p.state.depthTestEnabled = true ∧
      p.state.depthWriteEnabled = false ∧
      p.state.depthCompare = .lessEqual ∧
      (Stencil.runN 3 none 0 ⟨0, 0, 800, 600⟩).2.2 =
        List.replicate 3 (stencilBatch ⟨0, 0, 800, 600⟩ p) :=
  stencil_pipeline_built_once 3 ⟨0, 0, 800, 600⟩ (by decide)

/-- Claim C4: every `PrepareFramebuffer::run` invocation, whether the
framebuffer was reused or recreated, records exactly one batch consisting of:
disable stereo, set the viewport transform and the scissor rect to the full
viewport, bind the owned framebuffer, and one clear call covering color,
depth and stencil. -/
theorem prepareFramebuffer_single_batch (st : Option Framebuffer) (ctr : Nat)
    (vp : Viewport) :
    (PrepareFramebuffer.run st ctr vp).batches =
      [ [ .enableStereo false,
          .setViewportTransform vp,
          .setStateScissorRect vp,
          .setFramebuffer (PrepareFramebuffer.run st ctr vp).output,
          .clearFramebuffer true true true 0 0 0 1 1 0 true ] ] := rfl

/-- Claim C5: in every frame of the built graph, the last node is Blit and the
framebuffer value it reads from its wired varying — and blits — is exactly the
framebuffer that `PrepareFramebuffer::run` produced in that same frame. -/
theorem blit_consumes_prepared_framebuffer (inp : FrameInput) (st : GraphState) :
    (runFrame inp st).2.2.getLast? =
      some { name := "Blit",
             readValues :=
               [some (.fb (PrepareFramebuffer.run st.fbNode st.ctr inp.viewport).output)],
             batches :=
               [[ .blitColor (PrepareFramebuffer.run st.fbNode st.ctr inp.viewport).output ]] } := by
  simp [runFrame, RenderForwardTask.build, runNodes, runNode, Store.update,
    initStore, read1, asFb, asBucket, blitBatches]

/-- Claim C6: every `Draw::run` invocation records exactly one batch, which
starts by setting the projection transform evaluated from the active view
frustum, the view transform evaluated from the same frustum, and the identity
model transform — none of which is a draw call — before the item-rendering
commands. -/
theorem draw_run_one_batch_transform_setup_first (frustum : ViewFrustum)
    (plumber : ShapePlumber) (items : List Item) :
    (Draw.run frustum plumber items).batches =
      [ [ .setProjectionTransform frustum.projMat,
          .setViewTransform frustum.viewXform,
          .setModelTransform .ident ]
        ++ renderStateSortShapes plumber items ] ∧
    ([ BatchCmd.setProjectionTransform frustum.projMat,
       BatchCmd.setViewTransform frustum.viewXform,
       BatchCmd.setModelTransform .ident ].filter isDrawCall) = [] :=
  ⟨rfl, rfl⟩

/-- Claim C7: `Draw::run` is deterministic — two invocations given the same
view frustum, the same pipeline registry and the same item bucket contents and
ordering emit identical pipeline-bind and draw-call sequences. -/
theorem draw_run_deterministic (f1 f2 : ViewFrustum) (p1 p2 : ShapePlumber)
    (l1 l2 : List Item) (hf : f1 = f2) (hp : p1 = p2) (hl : l1 = l2) :
    bindsAndDraws ((Draw.run f1 p1 l1).batches.flatten) =
      bindsAndDraws ((Draw.run f2 p2 l2).batches.flatten) := by
  subst hf; subst hp; subst hl; rfl

/-- Witness for claim C7: two invocations on a one-item bucket with key 5 and
a registry containing key 5 emit the same bind/draw sequence. -/
theorem draw_run_deterministic_witness :
    bindsAndDraws ((Draw.run ⟨⟨0⟩, .ident⟩ [5] [⟨1, 5, false⟩]).batches.flatten) =
      bindsAndDraws ((Draw.run ⟨⟨0⟩, .ident⟩ [5] [⟨1, 5, false⟩]).batches.flatten) :=
  draw_run_deterministic ⟨⟨0⟩, .ident⟩ ⟨⟨0⟩, .ident⟩ [5] [5] [⟨1, 5, false⟩]
    [⟨1, 5, false⟩] rfl rfl rfl

/-- Counterexample for claim C8 as stated: the built graph does not have 11
nodes — `RenderForwardTask::build` adds 13 named nodes (the four debug-bounds
nodes count individually). -/
theorem build_has_thirteen_nodes_not_eleven : ¬ RenderForwardTask.build.length = 11 := by
  decide

/-- Claim C8 (amended): with empty opaque and transparent buckets and an 800
by 600 viewport, one frame of the built graph executes all 13 nodes in build
order without error, leaves the owned framebuffer sized 800 by 600, invokes
Blit exactly once, and issues zero draw calls other than the stencil pass's
4-vertex full-screen triangle strip. -/
theorem frame_empty_800x600_scenario :
    (runFrame emptyFrameInput freshGraphState).2.2.map TraceEntry.name =
      ["LightingModel", "ZoneRenderer", "PrepareFramebuffer", "PrepareStencil",
       "DrawOpaques", "DrawBackgroundDeferred", "DrawTransparents",
       "DrawMetaBounds", "DrawBounds", "DrawTransparentBounds", "DrawZones",
       "HUD", "Blit"] ∧
    (runFrame emptyFrameInput freshGraphState).2.2.length = 13 ∧
    ((runFrame emptyFrameInput freshGraphState).2.2.map TraceEntry.name).count "Blit" = 1 ∧
    ((runFrame emptyFrameInput freshGraphState).1.fbNode).map Framebuffer.width = some 800 ∧
    ((runFrame emptyFrameInput freshGraphState).1.fbNode).map Framebuffer.height = some 600 ∧
    frameDrawCalls (runFrame emptyFrameInput freshGraphState).2.2 =
      [.draw .triangleStrip 4] := by
  decide

/-- Claim C9: every `PrepareFramebuffer::run` invocation issues exactly one
clear, with color opaque black (0, 0, 0, 1), depth 1, stencil 0, and scissor
enabled — the same fixed values regardless of node state, counter or
viewport. -/
theorem prepareFramebuffer_clear_values (st : Option Framebuffer) (ctr : Nat)
    (vp : Viewport) :
    ((PrepareFramebuffer.run st ctr vp).batches.flatten).filter isClearCmd =
      [ .clearFramebuffer true true true 0 0 0 1 1 0 true ] := rfl

/-- Claim C10: `Draw::run`, `Stencil::run` and `DrawBackground::run` all leave
the render context's batch pointer null when they return, for every input. -/
theorem run_batch_ptr_restored (frustum : ViewFrustum) (vp : Viewport)
    (plumber : ShapePlumber) (items background : List Item)
    (stp : Option Pipeline) (builds : Nat) :
    (Draw.run frustum plumber items).batchPtrAfter = none ∧
    (Stencil.run stp builds vp).batchPtrAfter = none ∧
    (DrawBackground.run frustum vp background).batchPtrAfter = none :=
  ⟨rfl, rfl, rfl⟩

end RenderForward
